import Mathlib

/-!
Verification of the event-schedule and session-resolution core of the
FastF1 events module (`fastf1/events.py`).

The Python code is shallowly embedded:
* a row of the schedule (`Event`, a pandas Series in the source) becomes a
  structure of typed fields;
* pandas timestamps become `Int` nanoseconds since the epoch, `pd.NaT`
  becomes `Option.none`;
* Python `float(...)` values become `PyFloat` (an exact rational together
  with the non-finite values); parsing of numeric strings is modelled at
  exact rational precision (binary rounding of decimal literals is not
  modelled, nor are underscore digit separators or non-ASCII digits);
* `str.casefold`/`str.upper` are modelled by ASCII lower/upper casing,
  which agrees with Python on all the ASCII data handled here;
* exceptions become `Except` errors, with one constructor per `raise`
  site that the claims distinguish.
-/

namespace FastF1

/-- Timestamps are nanoseconds since the Unix epoch, mirroring the `int64`
view of `datetime64[ns]` values in pandas. -/
abbrev Timestamp := Int

/-- Nanoseconds per day, the unit used by `Timestamp.floor('D')` and
`pd.Timedelta(days=1)`. -/
def nsPerDay : Int := 86400000000000

/-- Model of `pandas.Timestamp.floor('D')`: round down to midnight. -/
def floorDay (t : Timestamp) : Timestamp := t - t % nsPerDay

/-- Days since 1970-01-01 of a Gregorian calendar date (civil-days
conversion, valid for all dates handled here). -/
def epochDay (y m d : Int) : Int :=
  let y' : Int := if m ≤ 2 then y - 1 else y
  let era : Int := (if 0 ≤ y' then y' else y' - 399) / 400
  let yoe : Int := y' - era * 400
  let doy : Int := (153 * (m + (if 2 < m then -3 else 9)) + 2) / 5 + d - 1
  let doe : Int := yoe * 365 + yoe / 4 - yoe / 100 + doy
  era * 146097 + doe - 719468

/-- Nanosecond timestamp of a calendar date and time of day. -/
def ts (y m d h mi s : Int) : Timestamp :=
  epochDay y m d * nsPerDay + ((h * 60 + mi) * 60 + s) * 1000000000

example : epochDay 1970 1 1 = 0 := by decide
example : epochDay 1970 3 1 = 59 := by decide
example : epochDay 2021 3 28 - epochDay 2021 3 27 = 1 := by decide

/-- The value of a Python `float(...)` call: an exact (not necessarily
reduced) fraction `num / den` for finite values, plus the three non-finite
values.  Construction keeps `den` positive.  The source never compares two
floats for equality, so the representation being non-canonical is
harmless: every consumer below depends only on the value. -/
inductive PyFloat where
  | finite (num : Int) (den : Nat)
  | inf
  | neginf
  | nan
deriving DecidableEq, Repr

/-- A Python `int` or integral `float`, viewed as a `PyFloat`. -/
def PyFloat.ofInt (n : Int) : PyFloat := .finite n 1

/-- Model of `float.is_integer` (`False` for `inf` and `nan`). -/
def PyFloat.isInteger : PyFloat → Bool
  | .finite num den => den ≠ 0 ∧ num % (den : Int) = 0
  | _ => false

/-- The integer value of an integral `PyFloat` (model of `int(num)` on the
values for which the source calls it). -/
def PyFloat.intVal : PyFloat → Int
  | .finite num den => num / (den : Int)
  | _ => 0

/-- ASCII model of `str.casefold()`. -/
def pyCasefold (s : String) : String := ⟨s.data.map Char.toLower⟩

/-- ASCII model of `str.upper()`. -/
def pyUpper (s : String) : String := ⟨s.data.map Char.toUpper⟩

/-- Characters stripped by Python's float parser before reading a number. -/
def pyWs (c : Char) : Bool :=
  c = ' ' ∨ c = '\t' ∨ c = '\n' ∨ c = '\r' ∨ c = '\x0b' ∨ c = '\x0c'

/-- Numeric value of a list of ASCII digits. -/
def digitsVal (cs : List Char) : Nat :=
  cs.foldl (fun a c => a * 10 + (c.toNat - '0'.toNat)) 0

/-- The fraction `digits · 10 ^ (e - fracLen)` as an unreduced positive
fraction. -/
def decFraction (digits : Nat) (fracLen : Nat) (e : Int) : Int × Nat :=
  let sc : Int := e - (fracLen : Int)
  if 0 ≤ sc then ((digits * 10 ^ sc.toNat : Nat), 1)
  else ((digits : Int), 10 ^ (-sc).toNat)

/-- Exact value of the decimal part of a Python float literal:
`digits [. digits] [(e|E) [sign] digits]`, with at least one mantissa
digit.  Returns `none` when the characters are not of that shape. -/
def parseDecimal (cs : List Char) : Option (Int × Nat) :=
  let ip := cs.takeWhile Char.isDigit
  let r1 := cs.drop ip.length
  let fp : List Char :=
    match r1 with
    | '.' :: t => t.takeWhile Char.isDigit
    | _ => []
  let r2 : List Char :=
    match r1 with
    | '.' :: t => t.drop (t.takeWhile Char.isDigit).length
    | _ => r1
  if ip.isEmpty ∧ fp.isEmpty then none
  else
    let digits := digitsVal (ip ++ fp)
    match r2 with
    | [] => some (decFraction digits fp.length 0)
    | c :: t =>
      if c = 'e' ∨ c = 'E' then
        let esign : Int := match t with | '-' :: _ => -1 | _ => 1
        let t2 : List Char := match t with | '+' :: u => u | '-' :: u => u | _ => t
        let ed := t2.takeWhile Char.isDigit
        if ed.isEmpty ∨ ¬ (t2.drop ed.length).isEmpty then none
        else some (decFraction digits fp.length (esign * (digitsVal ed : Int)))
      else none

/-- Model of Python `float(s)` on a string: strip whitespace, optional
sign, then either `inf`/`infinity`/`nan` (case-insensitively) or a decimal
literal.  `none` models the `ValueError` raised for unparseable strings. -/
def pyFloat? (s : String) : Option PyFloat :=
  let cs := ((s.toList.dropWhile pyWs).reverse.dropWhile pyWs).reverse
  let neg : Bool := match cs with | '-' :: _ => true | _ => false
  let body : List Char := match cs with | '+' :: t => t | '-' :: t => t | _ => cs
  let lb := body.map Char.toLower
  if lb = "inf".toList ∨ lb = "infinity".toList then
    some (if neg then .neginf else .inf)
  else if lb = "nan".toList then some .nan
  else
    match parseDecimal body with
    | some (n, d) => some (.finite (if neg then -n else n) d)
    | none => none

example : pyFloat? "3" = some (.finite 3 1) := by decide
example : pyFloat? "2.0" = some (.finite 20 10) := by decide
example : pyFloat? "2.5" = some (.finite 25 10) := by decide
example : pyFloat? " -1e2 " = some (.finite (-100) 1) := by decide
example : (pyFloat? "2.0").map PyFloat.isInteger = some true := by decide
example : (pyFloat? "2.0").map PyFloat.intVal = some 2 := by decide
example : (pyFloat? "2.5").map PyFloat.isInteger = some false := by decide
example : pyFloat? "FP3" = none := by decide
example : pyFloat? "practice 3" = none := by decide
example : pyFloat? "Q" = none := by decide
example : pyFloat? "" = none := by decide

/-- One row of the event schedule (the `Event` series of the source),
with each field at its declared column type.  `Option Timestamp` models a
`datetime64[ns]` cell (`none` is `pd.NaT`). -/
structure Event where
  round_number : Int := 0
  country : String := ""
  location : String := ""
  official_event_name : String := ""
  event_date : Option Timestamp := none
  event_name : String := ""
  event_format : String := ""
  session1 : String := ""
  session1_date : Option Timestamp := none
  session2 : String := ""
  session2_date : Option Timestamp := none
  session3 : String := ""
  session3_date : Option Timestamp := none
  session4 : String := ""
  session4_date : Option Timestamp := none
  session5 : String := ""
  session5_date : Option Timestamp := none
  f1_api_support : Bool := false
deriving DecidableEq, Repr, Inhabited

/-- `Event.is_testing` of the source: `event_format == 'testing'`. -/
def Event.is_testing (e : Event) : Bool := e.event_format = "testing"

/-- The five `session{i}` fields, in order. -/
def Event.sessionNames (e : Event) : List String :=
  [e.session1, e.session2, e.session3, e.session4, e.session5]

/-- The `session{n}` field selected by a session number `n ∈ 1..5`. -/
def Event.sessionField (e : Event) : Nat → String
  | 1 => e.session1
  | 2 => e.session2
  | 3 => e.session3
  | 4 => e.session4
  | 5 => e.session5
  | _ => ""

/-- The `session{n}_date` field selected by a session number `n ∈ 1..5`. -/
def Event.sessionDateField (e : Event) : Nat → Option Timestamp
  | 1 => e.session1_date
  | 2 => e.session2_date
  | 3 => e.session3_date
  | 4 => e.session4_date
  | 5 => e.session5_date
  | _ => none

/-- The string-valued entries of the row.  A membership test
`name in self.values` on the pandas series can only succeed against these
entries, since a string never compares equal to the row's numeric,
datetime or boolean values. -/
def Event.rowStrings (e : Event) : List String :=
  [e.country, e.location, e.official_event_name, e.event_name,
   e.event_format, e.session1, e.session2, e.session3, e.session4,
   e.session5]

/-- The `_SESSION_TYPE_ABBREVIATIONS` dict, as an association list in the
source's insertion order. -/
def _SESSION_TYPE_ABBREVIATIONS : List (String × String) :=
  [("R", "Race"),
   ("Q", "Qualifying"),
   ("SQ", "Sprint Qualifying"),
   ("FP1", "Practice 1"),
   ("FP2", "Practice 2"),
   ("FP3", "Practice 3")]

/-- A session identifier: either a Python number (`int` or `float`) or a
string. -/
inductive Identifier where
  | num (v : PyFloat)
  | str (s : String)
deriving DecidableEq, Repr

/-- Errors raised by the session-resolution methods, one constructor per
`raise` site the specification distinguishes. -/
inductive SessionError where
  /-- the ValueError reading "Invalid session type ..." (an unknown
  name/abbreviation, or a number that is not a whole number in 1..5). -/
  | invalidSessionType
  /-- the ValueError reading "No session of type ... for this event". -/
  | noSessionOfType
  /-- the ValueError reading "Session number ... does not exist for this
  event". -/
  | sessionNumberNotExist
  /-- the ValueError reading "Session type ... does not exist for this
  event" (raised by `get_session_date` only). -/
  | sessionTypeNotExist
deriving DecidableEq, Repr

deriving instance DecidableEq for Except

/-- The name-resolution loop of `get_session_name`: first the
case-insensitive scan over the dict's values, then the abbreviation lookup
on the upper-cased identifier (`None` models falling through to the
`raise` of an invalid session type). -/
def resolveSessionName (identifier : String) : Option String :=
  match (_SESSION_TYPE_ABBREVIATIONS.map Prod.snd).find?
      (fun name => pyCasefold identifier = pyCasefold name) with
  | some name => some name
  | none => _SESSION_TYPE_ABBREVIATIONS.lookup (pyUpper identifier)

/-- The by-name branch of `Event.get_session_name`. -/
def Event.byName (e : Event) (identifier : String) :
    Except SessionError String :=
  match resolveSessionName identifier with
  | none => .error .invalidSessionType
  | some session_name =>
    if session_name ∈ e.rowStrings then .ok session_name
    else .error .noSessionOfType

/-- The by-number branch of `Event.get_session_name` (and of
`Event.get_session`, where it is textually duplicated): the parsed number
must be a whole number in `(1, 2, 3, 4, 5)` and the selected session
field must be non-empty. -/
def Event.byNumber (e : Event) (v : PyFloat) : Except SessionError String :=
  if v.isInteger ∧ v.intVal ∈ ([1, 2, 3, 4, 5] : List Int) then
    let session_name := e.sessionField v.intVal.toNat
    if session_name = "" then .error .sessionNumberNotExist
    else .ok session_name
  else .error .invalidSessionType

/-- `Event.get_session_name`: interpret the identifier as a number if
`float(identifier)` succeeds, otherwise resolve it by name or
abbreviation and require the resolved canonical name to occur among the
row's values. -/
def Event.get_session_name (e : Event) : Identifier → Except SessionError String
  | .num v => e.byNumber v
  | .str s =>
    match pyFloat? s with
    | some v => e.byNumber v
    | none => e.byName s

/-- The opaque session handle built by the external `Session` collaborator:
it receives the event and the resolved canonical session name. -/
structure Session where
  event : Event
  session_name : String
deriving DecidableEq, Repr

/-- `Event.get_session`: same resolution as `get_session_name` (the
by-number branch is duplicated in the source; the by-name branch calls
`get_session_name` and then re-checks membership among the row values),
then hands the event and resolved name to the `Session` constructor. -/
def Event.get_session (e : Event) (i : Identifier) :
    Except SessionError Session :=
  match i with
  | .num v =>
    match e.byNumber v with
    | .ok session_name => .ok ⟨e, session_name⟩
    | .error err => .error err
  | .str s =>
    match pyFloat? s with
    | some v =>
      match e.byNumber v with
      | .ok session_name => .ok ⟨e, session_name⟩
      | .error err => .error err
    | none =>
      match e.get_session_name (.str s) with
      | .ok session_name =>
        if session_name ∈ e.rowStrings then .ok ⟨e, session_name⟩
        else .error .noSessionOfType
      | .error err => .error err

/-- `Event.get_session_date`: resolve the identifier to a canonical name,
find the first of the five session-name fields holding exactly that name,
and return the paired date; re-validates independently that the name
occurs. -/
def Event.get_session_date (e : Event) (i : Identifier) :
    Except SessionError (Option Timestamp) :=
  match e.get_session_name i with
  | .error err => .error err
  | .ok session_name =>
    match e.sessionNames.findIdx? (fun v => v = session_name) with
    | some k => .ok (e.sessionDateField (k + 1))
    | none => .error .sessionTypeNotExist

/-- A conventional event used in concrete checks below. -/
def sampleEvent : Event :=
  { round_number := 1
    country := "Bahrain"
    location := "Sakhir"
    official_event_name := "FORMULA 1 GULF AIR BAHRAIN GRAND PRIX 2021"
    event_date := some (ts 2021 3 28 15 0 0)
    event_name := "Bahrain Grand Prix"
    event_format := "conventional"
    session1 := "Practice 1"
    session1_date := some (ts 2021 3 26 11 30 0)
    session2 := "Practice 2"
    session2_date := some (ts 2021 3 26 15 0 0)
    session3 := "Practice 3"
    session3_date := some (ts 2021 3 27 12 0 0)
    session4 := "Qualifying"
    session4_date := some (ts 2021 3 27 15 0 0)
    session5 := "Race"
    session5_date := some (ts 2021 3 28 15 0 0)
    f1_api_support := true }

example : sampleEvent.get_session_name (.num (.finite 3 1)) = .ok "Practice 3" := by decide
example : sampleEvent.get_session_name (.str "Q") = .ok "Qualifying" := by decide
example : sampleEvent.get_session_name (.str "praCtice 1") = .ok "Practice 1" := by decide
example : sampleEvent.get_session_name (.str "FP4") = .error .invalidSessionType := by decide
example : sampleEvent.get_session_name (.num (.finite 6 1)) = .error .invalidSessionType := by decide
example : sampleEvent.get_session_name (.str "3") = .ok "Practice 3" := by decide
example : sampleEvent.get_session_date (.str "FP2") = .ok (some (ts 2021 3 26 15 0 0)) := by decide
example : ({ sampleEvent with session3 := "" } : Event).get_session_name
    (.num (.finite 3 1)) = .error .sessionNumberNotExist := by decide
example : ({ sampleEvent with session1 := "", session2 := "" } : Event).get_session_name
    (.str "SQ") = .error .noSessionOfType := by decide

/-- Name resolution as the specification words it: first the six full
canonical session names in the order the specification lists them, then
the abbreviation table. -/
def resolveSessionNameSpec (identifier : String) : Option String :=
  match (["Practice 1", "Practice 2", "Practice 3", "Sprint Qualifying",
      "Qualifying", "Race"]).find?
      (fun name => pyCasefold identifier = pyCasefold name) with
  | some name => some name
  | none => _SESSION_TYPE_ABBREVIATIONS.lookup (pyUpper identifier)

/-- The two scan orders resolve every identifier to the same canonical
name: the six names are pairwise distinct even case-insensitively, so at
most one of them can match. -/
theorem resolveSessionName_eq_spec (s : String) :
    resolveSessionName s = resolveSessionNameSpec s := by
  have e1 : pyCasefold "Race" = "race" := by decide
  have e2 : pyCasefold "Qualifying" = "qualifying" := by decide
  have e3 : pyCasefold "Sprint Qualifying" = "sprint qualifying" := by decide
  have e4 : pyCasefold "Practice 1" = "practice 1" := by decide
  have e5 : pyCasefold "Practice 2" = "practice 2" := by decide
  have e6 : pyCasefold "Practice 3" = "practice 3" := by decide
  by_cases hA : pyCasefold s = "race" <;>
    by_cases hB : pyCasefold s = "qualifying" <;>
      by_cases hC : pyCasefold s = "sprint qualifying" <;>
        by_cases hD : pyCasefold s = "practice 1" <;>
          by_cases hE : pyCasefold s = "practice 2" <;>
            by_cases hF : pyCasefold s = "practice 3" <;>
              simp_all [resolveSessionName, resolveSessionNameSpec,
                _SESSION_TYPE_ABBREVIATIONS, List.find?]

/-- An event whose `event_name` happens to equal the canonical session
name "Race" while none of its five session slots holds a race. -/
def raceNamedEvent : Event := { event_name := "Race" }

/-- C1: counterexample.  The claim requires a resolved canonical name to
be present among the event's session1..session5 values for the call to
succeed; the code instead checks membership in all of the row's values,
so on an event whose `event_name` is literally "Race" the lookup
succeeds although no session slot holds "Race". -/
theorem C1_counterexample :
    raceNamedEvent.get_session_name (.str "R") = .ok "Race"
    ∧ "Race" ∉ raceNamedEvent.sessionNames := by decide

/-- C1 (amended): for every identifier string that `float(...)` rejects,
`get_session_name` first matches the six canonical names
case-insensitively, then the upper-cased abbreviation table, raising the
invalid-session-type error when both fail; a resolved canonical name is
returned exactly when it occurs among the row's (string) values —
not merely the five session slots — and otherwise the distinct
no-session-of-that-type error is raised. -/
theorem C1_by_name_resolution (e : Event) (s : String)
    (h : pyFloat? s = none) :
    e.get_session_name (.str s) =
      match resolveSessionNameSpec s with
      | none => .error .invalidSessionType
      | some n =>
        if n ∈ e.rowStrings then .ok n else .error .noSessionOfType := by
  have hres := resolveSessionName_eq_spec s
  cases hr : resolveSessionNameSpec s <;>
    simp [Event.get_session_name, h, Event.byName, hres, hr]

/-- C1 witness: the amended description evaluated on a concrete event and
identifier. -/
theorem C1_witness :
    pyFloat? "fp2" = none
    ∧ sampleEvent.get_session_name (.str "fp2") =
        match resolveSessionNameSpec "fp2" with
        | none => .error .invalidSessionType
        | some n =>
          if n ∈ sampleEvent.rowStrings then .ok n
          else .error .noSessionOfType :=
  ⟨by decide, C1_by_name_resolution sampleEvent "fp2" (by decide)⟩

/-- C2: an identifier interpreted as a number that is not a whole number
in {1,2,3,4,5} raises the invalid-session-type error; a whole number n in
{1,..,5} whose `session{n}` field is empty raises the distinct
session-does-not-exist error; otherwise the non-empty `session{n}` field
is returned — both for `get_session_name` and for `get_session`. -/
theorem C2_by_number (e : Event) (v : PyFloat) :
    (¬ (v.isInteger ∧ v.intVal ∈ ([1, 2, 3, 4, 5] : List Int)) →
        e.get_session_name (.num v) = .error .invalidSessionType
        ∧ e.get_session (.num v) = .error .invalidSessionType)
    ∧ (v.isInteger → v.intVal ∈ ([1, 2, 3, 4, 5] : List Int) →
        (e.sessionField v.intVal.toNat = "" →
            e.get_session_name (.num v) = .error .sessionNumberNotExist
            ∧ e.get_session (.num v) = .error .sessionNumberNotExist)
        ∧ (e.sessionField v.intVal.toNat ≠ "" →
            e.get_session_name (.num v) = .ok (e.sessionField v.intVal.toNat)
            ∧ e.get_session (.num v) =
                .ok ⟨e, e.sessionField v.intVal.toNat⟩)) := by
  constructor
  · intro h
    have hb : e.byNumber v = .error .invalidSessionType := by
      simp only [Event.byNumber]
      rw [if_neg h]
    exact ⟨hb, by simp [Event.get_session, hb]⟩
  · intro h1 h2
    have hcond : v.isInteger ∧ v.intVal ∈ ([1, 2, 3, 4, 5] : List Int) :=
      ⟨h1, h2⟩
    constructor
    · intro he
      have hb : e.byNumber v = .error .sessionNumberNotExist := by
        simp only [Event.byNumber]
        rw [if_pos hcond, if_pos he]
      exact ⟨hb, by simp [Event.get_session, hb]⟩
    · intro hne
      have hb : e.byNumber v = .ok (e.sessionField v.intVal.toNat) := by
        simp only [Event.byNumber]
        rw [if_pos hcond, if_neg hne]
      exact ⟨hb, by simp [Event.get_session, hb]⟩

/-- C2 witness: the three branches on a concrete event — 6 is rejected as
invalid, an emptied session 3 reports session-does-not-exist, and session
3 of a conventional event resolves. -/
theorem C2_witness :
    sampleEvent.get_session_name (.num (.finite 6 1)) =
        .error .invalidSessionType
    ∧ ({ sampleEvent with session3 := "" } : Event).get_session_name
        (.num (.finite 3 1)) = .error .sessionNumberNotExist
    ∧ sampleEvent.get_session (.num (.finite 3 1)) =
        .ok ⟨sampleEvent, "Practice 3"⟩ := by
  refine ⟨((C2_by_number sampleEvent (.finite 6 1)).1 (by decide)).1, ?_, ?_⟩
  · exact (((C2_by_number { sampleEvent with session3 := "" }
      (.finite 3 1)).2 (by decide) (by decide)).1 (by decide)).1
  · exact (((C2_by_number sampleEvent
      (.finite 3 1)).2 (by decide) (by decide)).2 (by decide)).2

/-- C6: on any event whose `session3` field is "Practice 3", the session
number 3, the abbreviation "FP3" and the case-insensitive full name
"practice 3" all resolve to the canonical name "Practice 3"; and on any
event with pairwise-distinct session names, `get_session_date` depends
only on the resolved canonical name (so any identifiers resolving to the
same session agree), and resolution by session number returns exactly the
paired `session{n}_date`. -/
theorem C6_roundtrips :
    (∀ e : Event, e.session3 = "Practice 3" →
      e.get_session_name (.num (.finite 3 1)) = .ok "Practice 3"
      ∧ e.get_session_name (.str "FP3") = .ok "Practice 3"
      ∧ e.get_session_name (.str "practice 3") = .ok "Practice 3")
    ∧ (∀ e : Event, e.sessionNames.Pairwise (· ≠ ·) →
      (∀ a b s, e.get_session_name a = .ok s →
          e.get_session_name b = .ok s →
          e.get_session_date a = e.get_session_date b)
      ∧ (∀ n : Nat, 1 ≤ n → n ≤ 5 → e.sessionField n ≠ "" →
          e.get_session_date (.num (.finite (n : Int) 1)) =
            .ok (e.sessionDateField n))) := by
  refine ⟨fun e h => ⟨?_, ?_, ?_⟩, fun e hp => ⟨fun a b s ha hb => ?_, ?_⟩⟩
  · simp [Event.get_session_name, Event.byNumber, PyFloat.isInteger,
      PyFloat.intVal, Event.sessionField, h]
  · have hpf : pyFloat? "FP3" = none := by decide
    have hres : resolveSessionName "FP3" = some "Practice 3" := by decide
    simp [Event.get_session_name, hpf, Event.byName, hres,
      Event.rowStrings, h]
  · have hpf : pyFloat? "practice 3" = none := by decide
    have hres : resolveSessionName "practice 3" = some "Practice 3" := by
      decide
    simp [Event.get_session_name, hpf, Event.byName, hres,
      Event.rowStrings, h]
  · simp [Event.get_session_date, ha, hb]
  · intro n h1 h5 hne
    interval_cases n <;>
      simp_all [Event.get_session_date, Event.get_session_name,
        Event.byNumber, PyFloat.isInteger, PyFloat.intVal,
        Event.sessionField, Event.sessionNames, Event.sessionDateField,
        List.findIdx?_cons, List.Pairwise]

/-- C6 witness: the round-trips evaluated on a concrete conventional
event. -/
theorem C6_witness :
    sampleEvent.get_session_name (.str "FP3") = .ok "Practice 3"
    ∧ sampleEvent.get_session_date (.str "FP3") =
        sampleEvent.get_session_date (.str "practice 3")
    ∧ sampleEvent.get_session_date (.num (.finite 3 1)) =
        .ok sampleEvent.session3_date := by
  refine ⟨(C6_roundtrips.1 sampleEvent rfl).2.1, ?_, ?_⟩
  · exact (C6_roundtrips.2 sampleEvent (by decide)).1 (.str "FP3")
      (.str "practice 3") "Practice 3" (by decide) (by decide)
  · exact (C6_roundtrips.2 sampleEvent (by decide)).2 3 (by decide)
      (by decide) (by decide)

/-- C10: an identifier string accepted by `float(...)` is always resolved
by the by-number branch, identically to passing the parsed number itself
(both in `get_session_name` and `get_session`); in particular "3" behaves
like the number 3 on every event, and the parseable non-whole or
out-of-range strings "6" and "2.5" raise the invalid-session-type error
on every event, regardless of the event's session names. -/
theorem C10_numeric_strings :
    (∀ (e : Event) (s : String) (v : PyFloat), pyFloat? s = some v →
      e.get_session_name (.str s) = e.get_session_name (.num v)
      ∧ e.get_session (.str s) = e.get_session (.num v))
    ∧ (∀ e : Event,
      e.get_session_name (.str "3") =
        e.get_session_name (.num (.finite 3 1)))
    ∧ (∀ e : Event,
      e.get_session_name (.str "6") = .error .invalidSessionType
      ∧ e.get_session_name (.str "2.5") = .error .invalidSessionType) := by
  refine ⟨fun e s v h => ?_, fun e => ?_, fun e => ⟨?_, ?_⟩⟩
  · exact ⟨by simp [Event.get_session_name, h],
      by simp [Event.get_session, h]⟩
  · have h : pyFloat? "3" = some (.finite 3 1) := by decide
    simp [Event.get_session_name, h]
  · have h : pyFloat? "6" = some (.finite 6 1) := by decide
    simp [Event.get_session_name, h, Event.byNumber, PyFloat.isInteger,
      PyFloat.intVal]
  · have h : pyFloat? "2.5" = some (.finite 25 10) := by decide
    simp [Event.get_session_name, h, Event.byNumber, PyFloat.isInteger,
      PyFloat.intVal]

/-- An untyped cell of a raw data frame, before the dtype coercion of
`EventSchedule.__init__`.  `na` conflates the missing values `NaN`, `NaT`
and `None` (their distinct renderings under `astype(str)` are not
modelled; `na` renders as "nan"). -/
inductive Cell where
  | i (n : Int)
  | s (v : String)
  | d (t : Timestamp)
  | b (v : Bool)
  | na
deriving DecidableEq, Repr

/-- The four column dtypes of the `_COLS_TYPES` schema. -/
inductive Dtype where
  | int64
  | str
  | datetime
  | bool
deriving DecidableEq, Repr

/-- The `_COLS_TYPES` schema of `EventSchedule`: the fixed column names in
order, each with its declared dtype. -/
def _COLS_TYPES : List (String × Dtype) :=
  [("round_number", .int64),
   ("country", .str),
   ("location", .str),
   ("official_event_name", .str),
   ("event_date", .datetime),
   ("event_name", .str),
   ("event_format", .str),
   ("session1", .str),
   ("session1_date", .datetime),
   ("session2", .str),
   ("session2_date", .datetime),
   ("session3", .str),
   ("session3_date", .datetime),
   ("session4", .str),
   ("session4_date", .datetime),
   ("session5", .str),
   ("session5_date", .datetime),
   ("f1_api_support", .bool)]

/-- Model of Python `int(s)` on a string: optional sign and a non-empty
run of digits, after stripping whitespace. -/
def pyInt? (s : String) : Option Int :=
  let cs := ((s.toList.dropWhile pyWs).reverse.dropWhile pyWs).reverse
  let neg : Bool := match cs with | '-' :: _ => true | _ => false
  let body : List Char := match cs with | '+' :: t => t | '-' :: t => t | _ => cs
  if body.isEmpty ∨ ¬ body.all Char.isDigit then none
  else some (if neg then -(digitsVal body : Int) else (digitsVal body : Int))

/-- String rendering used by `astype(str)`.  Timestamps render through
their nanosecond value; the exact calendar formatting pandas uses is
presentation-only and never re-parsed by the source, so it is not
modelled further. -/
def cellToPyStr : Cell → String
  | .i n => toString n
  | .s v => v
  | .d t => toString t
  | .b v => if v then "True" else "False"
  | .na => "nan"

/-- Model of the per-cell effect of `Series.astype` for each of the four
schema dtypes, `none` modelling a conversion error that would abort the
construction:
* `int64`: keeps integers, converts booleans to 0/1, reads a
  `datetime64` cell as its nanosecond value, parses numeric strings, and
  fails on missing values;
* `str`: stringifies anything, never failing;
* `datetime64[ns]`: keeps datetimes and missing values (`NaT`),
  reinterprets integers as nanosecond values, fails on the conversions
  the source never performs (strings, booleans);
* `bool`: keeps booleans, makes non-zero integers and non-empty strings
  `True`, and maps a missing value to `True` (the observable effect of
  `NaN.astype(bool)` and the reason an absent `f1_api_support` column
  becomes all-`True`). -/
def astypeCell : Dtype → Cell → Option Cell
  | .int64, .i n => some (.i n)
  | .int64, .b v => some (.i (if v then 1 else 0))
  | .int64, .d t => some (.i t)
  | .int64, .s v => (pyInt? v).map .i
  | .int64, .na => none
  | .str, c => some (.s (cellToPyStr c))
  | .datetime, .d t => some (.d t)
  | .datetime, .na => some .na
  | .datetime, .i n => some (.d n)
  | .datetime, _ => none
  | .bool, .b v => some (.b v)
  | .bool, .i n => some (.b (n ≠ 0))
  | .bool, .s v => some (.b (v ≠ ""))
  | .bool, .na => some (.b true)
  | .bool, .d _ => none

/-- `astype` over a whole column. -/
def astypeCol (ty : Dtype) : List Cell → Option (List Cell)
  | [] => some []
  | c :: cs =>
    match astypeCell ty c, astypeCol ty cs with
    | some c2, some cs2 => some (c2 :: cs2)
    | _, _ => none

/-- Reindex the raw data to the schema columns (a missing column becomes
an all-missing column of `n` cells) and coerce each column to its
declared dtype. -/
def buildCols : List (String × Dtype) → List (String × List Cell) → Nat →
    Option (List (String × List Cell))
  | [], _, _ => some []
  | (nm, ty) :: rest, raw, n =>
    match astypeCol ty ((raw.lookup nm).getD (List.replicate n .na)),
        buildCols rest raw n with
    | some col, some out => some ((nm, col) :: out)
    | _, _ => none

/-- `EventSchedule.__init__` on raw column data: the `columns` keyword is
forced to the schema's column list, and every column is coerced to its
declared dtype.  The guard models the `DataFrame` requirement that all
supplied columns have one common length. -/
def eventScheduleInit (raw : List (String × List Cell)) :
    Option (List (String × List Cell)) :=
  let n := (raw.map fun p => p.2.length).foldl Nat.max 0
  if raw.all fun p => p.2.length = n then buildCols _COLS_TYPES raw n
  else none

/-- Whether a cell is a legal element of a column of the given dtype
(missing values are legal only in a `datetime64[ns]` column, as `NaT`). -/
def cellHasType : Dtype → Cell → Bool
  | .int64, .i _ => true
  | .str, .s _ => true
  | .datetime, .d _ => true
  | .datetime, .na => true
  | .bool, .b _ => true
  | _, _ => false

theorem astypeCell_hasType (ty : Dtype) (c c2 : Cell)
    (h : astypeCell ty c = some c2) : cellHasType ty c2 = true := by
  cases ty <;> cases c <;>
    first
    | exact Option.noConfusion h
    | (cases h; rfl)
    | (obtain ⟨n, -, rfl⟩ := Option.map_eq_some.1 h; rfl)

theorem astypeCol_hasType (ty : Dtype) (cells out : List Cell)
    (h : astypeCol ty cells = some out) :
    ∀ c ∈ out, cellHasType ty c = true := by
  induction cells generalizing out with
  | nil =>
    simp only [astypeCol] at h
    cases h
    simp
  | cons c cs ih =>
    simp only [astypeCol] at h
    cases hc : astypeCell ty c with
    | none => rw [hc] at h; exact absurd h (by simp)
    | some c2 =>
      cases hcs : astypeCol ty cs with
      | none => rw [hc, hcs] at h; exact absurd h (by simp)
      | some cs2 =>
        rw [hc, hcs] at h
        cases h
        intro x hx
        rcases List.mem_cons.1 hx with rfl | hx
        · exact astypeCell_hasType ty c x hc
        · exact ih cs2 hcs x hx

theorem astypeCol_length (ty : Dtype) (cells out : List Cell)
    (h : astypeCol ty cells = some out) : out.length = cells.length := by
  induction cells generalizing out with
  | nil => simp only [astypeCol] at h; cases h; rfl
  | cons c cs ih =>
    simp only [astypeCol] at h
    cases hc : astypeCell ty c with
    | none => rw [hc] at h; exact absurd h (by simp)
    | some c2 =>
      cases hcs : astypeCol ty cs with
      | none => rw [hc, hcs] at h; exact absurd h (by simp)
      | some cs2 =>
        rw [hc, hcs] at h
        cases h
        simp [ih cs2 hcs]

theorem buildCols_names_types (cols : List (String × Dtype))
    (raw : List (String × List Cell)) (n : Nat)
    (out : List (String × List Cell)) (h : buildCols cols raw n = some out) :
    out.map Prod.fst = cols.map Prod.fst
    ∧ List.Forall₂ (fun (p : String × Dtype) (q : String × List Cell) =>
        ∀ c ∈ q.2, cellHasType p.2 c = true) cols out := by
  induction cols generalizing out with
  | nil =>
    simp only [buildCols] at h
    cases h
    exact ⟨rfl, List.Forall₂.nil⟩
  | cons p rest ih =>
    obtain ⟨nm, ty⟩ := p
    simp only [buildCols] at h
    cases hcol : astypeCol ty ((raw.lookup nm).getD (List.replicate n .na)) with
    | none => rw [hcol] at h; exact absurd h (by simp)
    | some col =>
      cases hrest : buildCols rest raw n with
      | none => rw [hcol, hrest] at h; exact absurd h (by simp)
      | some out2 =>
        rw [hcol, hrest] at h
        cases h
        obtain ⟨h1, h2⟩ := ih out2 hrest
        refine ⟨by simp [h1], List.Forall₂.cons ?_ h2⟩
        exact astypeCol_hasType ty _ col hcol

/-- C7: however an `EventSchedule` is constructed, the resulting table
has exactly the schema's columns, in the schema's order and no others,
and every cell of every column satisfies the column's declared dtype. -/
theorem C7_schema_invariant (raw out : List (String × List Cell))
    (h : eventScheduleInit raw = some out) :
    out.map Prod.fst = _COLS_TYPES.map Prod.fst
    ∧ List.Forall₂ (fun (p : String × Dtype) (q : String × List Cell) =>
        ∀ c ∈ q.2, cellHasType p.2 c = true) _COLS_TYPES out := by
  simp only [eventScheduleInit] at h
  split at h
  · exact buildCols_names_types _COLS_TYPES raw _ out h
  · exact absurd h (by simp)

/-- C7 witness: the invariant evaluated on a concrete one-row raw input
(with several columns missing, as in the secondary-source path). -/
theorem C7_witness :
    (∃ out, eventScheduleInit [("round_number", [Cell.i 1]),
        ("country", [Cell.s "Bahrain"]),
        ("event_date", [Cell.d (ts 2021 3 28 15 0 0)])] = some out
      ∧ out.map Prod.fst = _COLS_TYPES.map Prod.fst) := by
  have h : eventScheduleInit [("round_number", [Cell.i 1]),
      ("country", [Cell.s "Bahrain"]),
      ("event_date", [Cell.d (ts 2021 3 28 15 0 0)])] ≠ none := by decide
  cases hout : eventScheduleInit [("round_number", [Cell.i 1]),
      ("country", [Cell.s "Bahrain"]),
      ("event_date", [Cell.d (ts 2021 3 28 15 0 0)])] with
  | none => exact absurd hout h
  | some out =>
    exact ⟨out, rfl, (C7_schema_invariant _ out hout).1⟩

/-- A cell holding an optional string (`recursive_dict_get` returns
`None` for a missing nested key, which lands in the frame as a missing
value). -/
def optStrCell : Option String → Cell
  | some v => .s v
  | none => .na

/-- A cell holding an optional timestamp (`pd.NaT` when absent). -/
def optTsCell : Option Timestamp → Cell
  | some t => .d t
  | none => .na

/-- One round record of the secondary (Ergast) season feed, after field
extraction: `date` is the result of
`pd.to_datetime(f"{date}T{time}").tz_localize(None)` on the round's raw
date/time strings, with `none` modelling the `ParserError` caught by the
source (the external date parser itself is not re-modelled). -/
structure ErgastRound where
  round : Int
  country : Option String
  locality : Option String
  raceName : Option String
  date : Option Timestamp
deriving DecidableEq, Repr

/-- The raw column data accumulated by `_get_schedule_from_ergast`'s
loop, in the source's insertion order.  The four supporting sessions are
fabricated at fixed offsets from the race date: Practice 1/2 two days
before (floored to day resolution), Practice 3 and Qualifying one day
before, and the race at its recorded time; a failed date parse makes all
of them `NaT`. -/
def ergastColumns (season : List ErgastRound) : List (String × List Cell) :=
  [("round_number", season.map fun r => .i r.round),
   ("country", season.map fun r => optStrCell r.country),
   ("location", season.map fun r => optStrCell r.locality),
   ("event_name", season.map fun r => optStrCell r.raceName),
   ("official_event_name", season.map fun _ => .s ""),
   ("event_date", season.map fun r => optTsCell r.date),
   ("event_format", season.map fun _ => .s "conventional"),
   ("session1", season.map fun _ => .s "Practice 1"),
   ("session1_date", season.map fun r =>
     optTsCell (r.date.map fun d => floorDay d - 2 * nsPerDay)),
   ("session2", season.map fun _ => .s "Practice 2"),
   ("session2_date", season.map fun r =>
     optTsCell (r.date.map fun d => floorDay d - 2 * nsPerDay)),
   ("session3", season.map fun _ => .s "Practice 3"),
   ("session3_date", season.map fun r =>
     optTsCell (r.date.map fun d => floorDay d - nsPerDay)),
   ("session4", season.map fun _ => .s "Qualifying"),
   ("session4_date", season.map fun r =>
     optTsCell (r.date.map fun d => floorDay d - nsPerDay)),
   ("session5", season.map fun _ => .s "Race"),
   ("session5_date", season.map fun r => optTsCell r.date)]

/-- `_get_schedule_from_ergast`: build the raw frame from the season's
rounds and construct an `EventSchedule` from it (note the raw data has no
`f1_api_support` column; reindexing inserts a missing column which the
bool coercion turns into `True`). -/
def _get_schedule_from_ergast (season : List ErgastRound) :
    Option (List (String × List Cell)) :=
  eventScheduleInit (ergastColumns season)

/-- Rendering of an optional string cell after `astype(str)`. -/
def strOrNan (o : Option String) : String := o.getD "nan"

/-- The value `_get_schedule_from_ergast` evaluates to: each column in
schema order, converted cell-by-cell from the corresponding round. -/
def ergastConverted (season : List ErgastRound) : List (String × List Cell) :=
  [("round_number", season.map fun r => .i r.round),
   ("country", season.map fun r => .s (strOrNan r.country)),
   ("location", season.map fun r => .s (strOrNan r.locality)),
   ("official_event_name", season.map fun _ => .s ""),
   ("event_date", season.map fun r => optTsCell r.date),
   ("event_name", season.map fun r => .s (strOrNan r.raceName)),
   ("event_format", season.map fun _ => .s "conventional"),
   ("session1", season.map fun _ => .s "Practice 1"),
   ("session1_date", season.map fun r =>
     optTsCell (r.date.map fun d => floorDay d - 2 * nsPerDay)),
   ("session2", season.map fun _ => .s "Practice 2"),
   ("session2_date", season.map fun r =>
     optTsCell (r.date.map fun d => floorDay d - 2 * nsPerDay)),
   ("session3", season.map fun _ => .s "Practice 3"),
   ("session3_date", season.map fun r =>
     optTsCell (r.date.map fun d => floorDay d - nsPerDay)),
   ("session4", season.map fun _ => .s "Qualifying"),
   ("session4_date", season.map fun r =>
     optTsCell (r.date.map fun d => floorDay d - nsPerDay)),
   ("session5", season.map fun _ => .s "Race"),
   ("session5_date", season.map fun r => optTsCell r.date),
   ("f1_api_support", List.replicate season.length (.b true))]

theorem astypeCol_map {α : Type} (ty : Dtype) (f g : α → Cell)
    (hfg : ∀ a, astypeCell ty (f a) = some (g a)) :
    ∀ l : List α, astypeCol ty (l.map f) = some (l.map g)
  | [] => rfl
  | a :: l => by
    simp [astypeCol, hfg a, astypeCol_map ty f g hfg l]

theorem astypeCol_int_i {α : Type} (f : α → Int) (l : List α) :
    astypeCol .int64 (l.map fun r => Cell.i (f r)) =
      some (l.map fun r => Cell.i (f r)) :=
  astypeCol_map .int64 (fun r => Cell.i (f r)) (fun r => Cell.i (f r))
    (fun _ => rfl) l

theorem astypeCol_str_opt {α : Type} (g : α → Option String) (l : List α) :
    astypeCol .str (l.map fun r => optStrCell (g r)) =
      some (l.map fun r => Cell.s (strOrNan (g r))) :=
  astypeCol_map .str (fun r => optStrCell (g r))
    (fun r => Cell.s (strOrNan (g r)))
    (fun a => by
      cases h : g a <;>
        simp [optStrCell, strOrNan, astypeCell, cellToPyStr, h]) l

theorem astypeCol_str_replicate (k : String) (n : Nat) :
    astypeCol .str (List.replicate n (Cell.s k)) =
      some (List.replicate n (Cell.s k)) := by
  induction n with
  | zero => rfl
  | succ m ih => simp [List.replicate, astypeCol, ih, astypeCell, cellToPyStr]

theorem astypeCol_dt_opt {α : Type} (g : α → Option Timestamp) (l : List α) :
    astypeCol .datetime (l.map fun r => optTsCell (g r)) =
      some (l.map fun r => optTsCell (g r)) :=
  astypeCol_map .datetime (fun r => optTsCell (g r))
    (fun r => optTsCell (g r))
    (fun a => by cases h : g a <;> simp [optTsCell, astypeCell, h]) l

theorem astypeCol_bool_replicate (n : Nat) :
    astypeCol .bool (List.replicate n .na) =
      some (List.replicate n (.b true)) := by
  induction n with
  | zero => rfl
  | succ k ih => simp [List.replicate, astypeCol, ih, astypeCell]

/-- The secondary adapter never fails, and evaluates to the converted
table. -/
theorem ergast_eval (season : List ErgastRound) :
    _get_schedule_from_ergast season = some (ergastConverted season) := by
  have h1 := astypeCol_int_i (fun r : ErgastRound => r.round) season
  have h2 := astypeCol_str_opt (fun r : ErgastRound => r.country) season
  have h3 := astypeCol_str_opt (fun r : ErgastRound => r.locality) season
  have h4 := astypeCol_str_opt (fun r : ErgastRound => r.raceName) season
  have h5 := astypeCol_str_replicate "" season.length
  have h6 := astypeCol_dt_opt (fun r : ErgastRound => r.date) season
  have h7 := astypeCol_str_replicate "conventional" season.length
  have h8 := astypeCol_str_replicate "Practice 1" season.length
  have h9 := astypeCol_dt_opt
    (fun r : ErgastRound => r.date.map fun d => floorDay d - 2 * nsPerDay) season
  have h10 := astypeCol_str_replicate "Practice 2" season.length
  have h11 := astypeCol_str_replicate "Practice 3" season.length
  have h12 := astypeCol_dt_opt
    (fun r : ErgastRound => r.date.map fun d => floorDay d - nsPerDay) season
  have h13 := astypeCol_str_replicate "Qualifying" season.length
  have h14 := astypeCol_str_replicate "Race" season.length
  have h15 := astypeCol_bool_replicate season.length
  simp [_get_schedule_from_ergast, eventScheduleInit, ergastColumns,
    buildCols, _COLS_TYPES, List.lookup, ergastConverted,
    h1, h2, h3, h4, h5, h6, h7, h8, h9, h10, h11, h12, h13, h14, h15]

/-- The cells of the named column of a built schedule. -/
def colAt (out : List (String × List Cell)) (nm : String) : List Cell :=
  (out.lookup nm).getD []

/-- The cells of row `j` of a built schedule, one per column. -/
def rowAt (out : List (String × List Cell)) (j : Nat) : List (Option Cell) :=
  out.map fun p => p.2[j]?

theorem getq_set_self {α : Type} (l : List α) (i : Nat) (a : α)
    (h : i < l.length) : (l.set i a)[i]? = some a := by
  induction l generalizing i with
  | nil => exact absurd h (by simp)
  | cons x xs ih =>
    cases i with
    | zero => simp [List.set]
    | succ k => simpa [List.set] using ih k (by simpa using h)

theorem getq_map_set_ne {α β : Type} (l : List α) (i j : Nat) (a : α)
    (f : α → β) (h : j ≠ i) :
    ((l.set i a).map f)[j]? = (l.map f)[j]? := by
  induction l generalizing i j with
  | nil => simp
  | cons x xs ih =>
    cases i with
    | zero =>
      cases j with
      | zero => exact absurd rfl h
      | succ k => simp [List.set]
    | succ m =>
      cases j with
      | zero => simp [List.set]
      | succ k =>
        simp only [List.set, List.map_cons, List.getElem?_cons_succ]
        exact ih m k (fun hk => h (by simp [hk]))

/-- C3: every Ergast round with a parseable race date-time `d` yields a
schedule row with Practice 1 and Practice 2 dated two days before `d`
(floored to day resolution), Practice 3 and Qualifying one day before,
and the race at exactly `d`. -/
theorem C3_ergast_synthesis (season : List ErgastRound) (i : Nat)
    (r : ErgastRound) (d : Timestamp)
    (h1 : season[i]? = some r) (h2 : r.date = some d) :
    _get_schedule_from_ergast season = some (ergastConverted season)
    ∧ (colAt (ergastConverted season) "session1")[i]? =
        some (.s "Practice 1")
    ∧ (colAt (ergastConverted season) "session1_date")[i]? =
        some (.d (floorDay d - 2 * nsPerDay))
    ∧ (colAt (ergastConverted season) "session2")[i]? =
        some (.s "Practice 2")
    ∧ (colAt (ergastConverted season) "session2_date")[i]? =
        some (.d (floorDay d - 2 * nsPerDay))
    ∧ (colAt (ergastConverted season) "session3")[i]? =
        some (.s "Practice 3")
    ∧ (colAt (ergastConverted season) "session3_date")[i]? =
        some (.d (floorDay d - nsPerDay))
    ∧ (colAt (ergastConverted season) "session4")[i]? =
        some (.s "Qualifying")
    ∧ (colAt (ergastConverted season) "session4_date")[i]? =
        some (.d (floorDay d - nsPerDay))
    ∧ (colAt (ergastConverted season) "session5")[i]? =
        some (.s "Race")
    ∧ (colAt (ergastConverted season) "session5_date")[i]? =
        some (.d d) := by
  have hi : i < season.length := by
    by_contra hge
    rw [List.getElem?_eq_none (Nat.le_of_not_lt hge)] at h1
    exact Option.noConfusion h1
  have hr : season[i] = r := by
    rw [List.getElem?_eq_getElem hi] at h1
    exact Option.some.inj h1
  refine ⟨ergast_eval season, ?_, ?_, ?_, ?_, ?_, ?_, ?_, ?_, ?_, ?_⟩ <;>
    simp [colAt, ergastConverted, List.lookup, List.getElem?_map, h1, h2,
      optTsCell, hi, hr]

/-- C4: replacing any one round of an Ergast season (in particular by one
whose date fields fail to parse) never aborts construction; the affected
round is still included — every column keeps one cell per round — its
`event_date` and all five derived session dates are null, and every other
round's row is bit-for-bit unaffected. -/
theorem C4_ergast_fault_isolation (season : List ErgastRound) (i : Nat)
    (r2 : ErgastRound) :
    _get_schedule_from_ergast (season.set i r2) =
      some (ergastConverted (season.set i r2))
    ∧ (∀ p ∈ ergastConverted (season.set i r2), p.2.length = season.length)
    ∧ (r2.date = none → i < season.length →
        (colAt (ergastConverted (season.set i r2)) "event_date")[i]? =
          some .na
        ∧ (colAt (ergastConverted (season.set i r2)) "session1_date")[i]? =
          some .na
        ∧ (colAt (ergastConverted (season.set i r2)) "session2_date")[i]? =
          some .na
        ∧ (colAt (ergastConverted (season.set i r2)) "session3_date")[i]? =
          some .na
        ∧ (colAt (ergastConverted (season.set i r2)) "session4_date")[i]? =
          some .na
        ∧ (colAt (ergastConverted (season.set i r2)) "session5_date")[i]? =
          some .na)
    ∧ (∀ j, j ≠ i →
        rowAt (ergastConverted season) j =
          rowAt (ergastConverted (season.set i r2)) j) := by
  refine ⟨ergast_eval _, ?_, ?_, ?_⟩
  · intro p hp
    fin_cases hp <;> simp [List.length_set]
  · intro hd hi
    have hi2 : i < (season.set i r2).length := by
      rw [List.length_set]
      exact hi
    have hr2 : (season.set i r2)[i] = r2 := List.getElem_set_self hi2
    refine ⟨?_, ?_, ?_, ?_, ?_, ?_⟩ <;>
      simp [colAt, ergastConverted, List.lookup, List.getElem?_map, hi2,
        hr2, hd, optTsCell, getq_set_self, hi]
  · intro j hj
    simp only [rowAt, ergastConverted, List.map_cons, List.map_nil]
    have hrep : (List.replicate (season.set i r2).length
        (Cell.b true))[j]? = (List.replicate season.length (Cell.b true))[j]? := by
      rw [List.length_set]
    simp only [getq_map_set_ne _ i j r2 _ hj, hrep]

/-- A concrete Ergast round whose race date-time parses to
2021-03-28T15:00:00. -/
def ergastRound1 : ErgastRound :=
  ⟨1, some "Bahrain", some "Sakhir", some "Bahrain Grand Prix",
    some (ts 2021 3 28 15 0 0)⟩

/-- A concrete Ergast round whose date/time fields fail to parse. -/
def ergastRoundBad : ErgastRound :=
  ⟨2, some "Italy", some "Imola", some "Emilia Romagna Grand Prix", none⟩

/-- C3 witness: for the race date-time 2021-03-28T15:00:00, session1/2
are dated 2021-03-26T00:00:00, session3/4 are dated 2021-03-27T00:00:00,
and session5 keeps the race date-time exactly. -/
theorem C3_witness :
    (colAt (ergastConverted [ergastRound1]) "session1_date")[0]? =
      some (.d (ts 2021 3 26 0 0 0))
    ∧ (colAt (ergastConverted [ergastRound1]) "session2_date")[0]? =
      some (.d (ts 2021 3 26 0 0 0))
    ∧ (colAt (ergastConverted [ergastRound1]) "session3_date")[0]? =
      some (.d (ts 2021 3 27 0 0 0))
    ∧ (colAt (ergastConverted [ergastRound1]) "session4_date")[0]? =
      some (.d (ts 2021 3 27 0 0 0))
    ∧ (colAt (ergastConverted [ergastRound1]) "session5_date")[0]? =
      some (.d (ts 2021 3 28 15 0 0)) := by
  have h := C3_ergast_synthesis [ergastRound1] 0 ergastRound1
    (ts 2021 3 28 15 0 0) rfl rfl
  exact ⟨h.2.2.1.trans (by decide), h.2.2.2.2.1.trans (by decide),
    h.2.2.2.2.2.2.1.trans (by decide),
    h.2.2.2.2.2.2.2.2.1.trans (by decide),
    h.2.2.2.2.2.2.2.2.2.2.trans (by decide)⟩

/-- C4 witness: a two-round season where the second round's date fails to
parse still builds, the failed round's event date is null, and the first
round's row is unchanged. -/
theorem C4_witness :
    _get_schedule_from_ergast ([ergastRound1, ergastRound1].set 1 ergastRoundBad) =
      some (ergastConverted ([ergastRound1, ergastRound1].set 1 ergastRoundBad))
    ∧ (colAt (ergastConverted ([ergastRound1, ergastRound1].set 1 ergastRoundBad))
        "event_date")[1]? = some .na
    ∧ rowAt (ergastConverted [ergastRound1, ergastRound1]) 0 =
        rowAt (ergastConverted ([ergastRound1, ergastRound1].set 1 ergastRoundBad)) 0 := by
  have h := C4_ergast_fault_isolation [ergastRound1, ergastRound1] 1 ergastRoundBad
  exact ⟨h.1, (h.2.2.1 rfl (by decide)).1, h.2.2.2 0 (by decide)⟩

/-- A season's schedule table: the `year` metadata attribute, the event
rows in table order, and the rows' pandas index labels.  A freshly
constructed schedule has labels `0..n-1` (the default RangeIndex), and
boolean-mask filtering — as in `get_event_schedule(include_testing=False)`
— keeps each surviving row's original label, so a filtered schedule can
lack label 0.  Positional `iloc` access ignores the labels; `loc` access
goes through them. -/
structure EventSchedule where
  year : Int
  events : List Event
  labels : List Nat
deriving DecidableEq, Repr

/-- Replace every non-overlapping occurrence of `pat` in `l`, scanning
left to right (the behavior of Python `str.replace` for a non-empty
pattern).  The fuel argument, set to the length of the scanned list,
only serves termination and never runs out since a step always consumes
at least one character. -/
def replaceFuel : Nat → List Char → List Char → List Char → List Char
  | 0, l, _, _ => l
  | _ + 1, [], _, _ => []
  | fuel + 1, c :: rest, pat, rep =>
    if pat.isPrefixOf (c :: rest) then
      rep ++ replaceFuel fuel ((c :: rest).drop pat.length) pat rep
    else c :: replaceFuel fuel rest pat rep

/-- Model of Python `str.replace` (all occurrences, left to right). -/
def pyReplace (s pat rep : String) : String :=
  ⟨replaceFuel s.data.length s.data pat.data rep.data⟩

example : pyReplace "British Grand Prix" "Grand Prix" "" = "British " := by decide
example : pyReplace "FORMULA 1 GULF AIR BAHRAIN GRAND PRIX 2021" "FORMULA 1" "" =
    " GULF AIR BAHRAIN GRAND PRIX 2021" := by decide

/-- The candidate comparison strings `_matcher_strings` builds for one
event row: location; country; the event name with the literal substring
"Grand Prix" removed; and the official name with "FORMULA 1", the season
year and "GRAND PRIX" removed, in that order. -/
def matcherStrings (year : Int) (ev : Event) : List String :=
  [ev.location,
   ev.country,
   pyReplace ev.event_name "Grand Prix" "",
   pyReplace (pyReplace (pyReplace ev.official_event_name "FORMULA 1" "")
     (toString year) "") "GRAND PRIX" ""]

/-- The score of one row against the query: the maximum, over the four
candidate strings, of the similarity ratio of the case-folded candidate
against the case-folded query.  The ratio function (`fuzz.ratio` of the
external fuzzy-matching library) is a parameter. -/
def rowScore (sim : String → String → Nat) (year : Int) (name : String)
    (ev : Event) : Nat :=
  ((matcherStrings year ev).map fun v =>
    sim (pyCasefold v) (pyCasefold name)).foldl Nat.max 0

/-- The selection loop of `get_event_by_name`, iterating the
(label, score) pairs produced by `iterrows`: `max_ratio` and `index`
start at the literal 0 and a row is adopted only on a strictly greater
score, the adopted value being the row's index label. -/
def bestLabelAux : List (Nat × Nat) → Nat → Nat → Nat
  | [], _, index => index
  | (lbl, r) :: rest, max_ratio, index =>
    if max_ratio < r then bestLabelAux rest r lbl
    else bestLabelAux rest max_ratio index

/-- Model of `self.loc[lbl]` on labelled rows: the row carrying label
`lbl` (rows built by this module have unique labels); `none` models the
KeyError raised when no row carries the label. -/
def locLabel (rows : List (Nat × Event)) (lbl : Nat) : Option Event :=
  (rows.find? fun p => p.1 = lbl).map Prod.snd

/-- `EventSchedule.get_event_by_name`: fuzzy lookup with no threshold.
The loop walks the labelled rows; the final `self.loc[index]` looks the
winning *label* up again, so if no row scored above the initial 0 the
literal label 0 is looked up — a KeyError (`none`) on a schedule whose
label 0 was filtered away. -/
def EventSchedule.get_event_by_name (sim : String → String → Nat)
    (sched : EventSchedule) (name : String) : Option Event :=
  let rows := sched.labels.zip sched.events
  let scored := rows.map fun p => (p.1, rowScore sim sched.year name p.2)
  locLabel rows (bestLabelAux scored 0 0)

/-- Errors raised by the schedule-level lookup helpers. -/
inductive LookupError where
  /-- the ValueError reading "Invalid round: ...". -/
  | invalidRound
  /-- the ValueError reading "Cannot get testing event by round
  number!". -/
  | testingByRound
  /-- the ValueError reading "Test event number ... does not exist". -/
  | testEventNotExist
  /-- the KeyError raised by the label lookup `self.loc[index]` when no
  row carries the label (e.g. label 0 on a testing-filtered schedule). -/
  | locKeyError
deriving DecidableEq, Repr

/-- `EventSchedule.get_event_by_round`: first row whose round number
matches exactly, else the invalid-round error. -/
def EventSchedule.get_event_by_round (sched : EventSchedule) (round : Int) :
    Except LookupError Event :=
  match sched.events.find? (fun e => e.round_number = round) with
  | some ev => .ok ev
  | none => .error .invalidRound

/-- An event selector: a name string or a round number. -/
inductive GpId where
  | name (s : String)
  | round (n : Int)
deriving DecidableEq, Repr

/-- `get_event`: works on the schedule with testing events filtered out
(`include_testing=False`); a string selects by fuzzy name, an integer by
round number with an explicit guard rejecting round 0 before any
lookup. -/
def get_event (sim : String → String → Nat) (sched : EventSchedule)
    (gp : GpId) : Except LookupError Event :=
  let kept := (sched.labels.zip sched.events).filter fun p => ¬ p.2.is_testing
  let schedule : EventSchedule :=
    ⟨sched.year, kept.map Prod.snd, kept.map Prod.fst⟩
  match gp with
  | .name s =>
    match schedule.get_event_by_name sim s with
    | some ev => .ok ev
    | none => .error .locKeyError
  | .round n =>
    if n = 0 then .error .testingByRound
    else schedule.get_event_by_round n

/-- `get_testing_event`: keep only testing rows, assert
`test_number >= 1` and take `iloc[test_number - 1]`; both the failed
assertion and an out-of-range index surface as the same ValueError. -/
def get_testing_event (sched : EventSchedule) (test_number : Int) :
    Except LookupError Event :=
  let testing := sched.events.filter Event.is_testing
  if test_number < 1 then .error .testEventNotExist
  else
    match testing[(test_number - 1).toNat]? with
    | some ev => .ok ev
    | none => .error .testEventNotExist

theorem getD_mem {α : Type} {l : List α} {k : Nat} (d : α)
    (h : k < l.length) : l.getD k d ∈ l := by
  rw [List.getD_eq_getElem l d h]
  exact List.getElem_mem h

/-- Characterization of the selection loop: either nothing beats the
running best and the running index label is returned, or the label at
the first position of the overall maximum (which strictly beats the
running best) is returned. -/
theorem bestLabelAux_spec (rest : List (Nat × Nat)) :
    ∀ best index : Nat,
    (bestLabelAux rest best index = index ∧ ∀ p ∈ rest, p.2 ≤ best)
    ∨ ∃ j, j < rest.length
        ∧ bestLabelAux rest best index = (rest.getD j (0, 0)).1
        ∧ best < (rest.getD j (0, 0)).2
        ∧ (∀ k, k < rest.length →
            (rest.getD k (0, 0)).2 ≤ (rest.getD j (0, 0)).2)
        ∧ (∀ k, k < j →
            (rest.getD k (0, 0)).2 < (rest.getD j (0, 0)).2) := by
  induction rest with
  | nil =>
    intro best index
    left
    exact ⟨rfl, by simp⟩
  | cons p rs ih =>
    obtain ⟨lbl, r⟩ := p
    intro best index
    have hstep : bestLabelAux ((lbl, r) :: rs) best index =
        if best < r then bestLabelAux rs r lbl
        else bestLabelAux rs best index := rfl
    by_cases h : best < r
    · rcases ih r lbl with ⟨heq, hle⟩ | ⟨j, hj, heq, hgt, hmax, hfirst⟩
      · right
        refine ⟨0, Nat.succ_pos _, ?_, by simpa using h, ?_, ?_⟩
        · rw [hstep, if_pos h, heq]
          simp
        · intro k hk
          cases k with
          | zero => simp
          | succ m =>
            have hm : m < rs.length := by simpa using hk
            simpa using hle (rs.getD m (0, 0)) (getD_mem (0, 0) hm)
        · intro k hk
          exact absurd hk (Nat.not_lt_zero k)
      · right
        refine ⟨j + 1, by simpa using hj, ?_, ?_, ?_, ?_⟩
        · rw [hstep, if_pos h, heq]
          simp
        · simpa using Nat.lt_trans h hgt
        · intro k hk
          cases k with
          | zero => simpa using Nat.le_of_lt hgt
          | succ m =>
            have hm : m < rs.length := by simpa using hk
            simpa using hmax m hm
        · intro k hk
          cases k with
          | zero => simpa using hgt
          | succ m =>
            have hm : m < j := by omega
            simpa using hfirst m hm
    · rcases ih best index with ⟨heq, hle⟩ | ⟨j, hj, heq, hgt, hmax, hfirst⟩
      · left
        refine ⟨by rw [hstep, if_neg h, heq], ?_⟩
        intro x hx
        rcases List.mem_cons.1 hx with rfl | hx
        · exact Nat.le_of_not_lt h
        · exact hle x hx
      · right
        refine ⟨j + 1, by simpa using hj, ?_, ?_, ?_, ?_⟩
        · rw [hstep, if_neg h, heq]
          simp
        · simpa using hgt
        · intro k hk
          cases k with
          | zero =>
            simpa using Nat.le_of_lt
              (Nat.lt_of_le_of_lt (Nat.le_of_not_lt h) hgt)
          | succ m =>
            have hm : m < rs.length := by simpa using hk
            simpa using hmax m hm
        · intro k hk
          cases k with
          | zero => simpa using Nat.lt_of_le_of_lt (Nat.le_of_not_lt h) hgt
          | succ m =>
            have hm : m < j := by omega
            simpa using hfirst m hm

/-- With pairwise-distinct labels, a `loc` lookup given the j-th label
finds exactly the j-th row. -/
theorem zip_find_label {ls : List Nat} {es : List Event} (hnd : ls.Nodup)
    (j : Nat) (hjl : j < ls.length) (hje : j < es.length) :
    (ls.zip es).find? (fun p => p.1 = ls[j]) = some (ls[j], es[j]) := by
  induction ls generalizing es j with
  | nil => exact absurd hjl (by simp)
  | cons l ls ih =>
    cases es with
    | nil => exact absurd hje (by simp)
    | cons e es =>
      cases j with
      | zero => simp [List.find?]
      | succ m =>
        have hm : m < ls.length := by simpa using hjl
        have hme : m < es.length := by simpa using hje
        have hlne : l ≠ ls[m] := fun hcon =>
          (List.nodup_cons.1 hnd).1 (hcon ▸ List.getElem_mem hm)
        have hstep : ((l :: ls).zip (e :: es)).find?
            (fun p => p.1 = ls[m]) =
            (ls.zip es).find? (fun p => p.1 = ls[m]) := by
          rw [List.zip_cons_cons]
          exact List.find?_cons_of_neg _ (by simpa using hlne)
        simp only [List.getElem_cons_succ]
        rw [hstep]
        exact ih (List.nodup_cons.1 hnd).2 m hm hme

/-- C5 (amended): for any similarity function, on any schedule with
(pandas-unique) row labels and any query, `get_event_by_name` builds the
four comparison strings per row (location, country, event name without
"Grand Prix", official name without "FORMULA 1"/year/"GRAND PRIX"),
scores them case-folded against the case-folded query, takes the per-row
maximum and adopts a row only on a strictly greater score than the
running best, which starts at 0.  Whenever some row scores above zero,
the row with the strictly greatest maximum ratio is returned, first-seen
winning ties, with no minimum threshold; when every row scores zero the
final `loc` lookup uses the initial literal label 0, returning the row
labelled 0 if one exists and failing (KeyError) otherwise — as on a
testing-filtered schedule whose label 0 was removed. -/
theorem C5_get_event_by_name (sim : String → String → Nat)
    (sched : EventSchedule) (name : String)
    (hlen : sched.labels.length = sched.events.length)
    (hnd : sched.labels.Nodup) :
    ((∃ j, j < sched.events.length ∧
        0 < rowScore sim sched.year name (sched.events.getD j default)) →
      ∃ k, k < sched.events.length
        ∧ sched.get_event_by_name sim name =
            some (sched.events.getD k default)
        ∧ (∀ j, j < sched.events.length →
            rowScore sim sched.year name (sched.events.getD j default) ≤
              rowScore sim sched.year name (sched.events.getD k default))
        ∧ (∀ j, j < k →
            rowScore sim sched.year name (sched.events.getD j default) <
              rowScore sim sched.year name (sched.events.getD k default)))
    ∧ ((∀ j, j < sched.events.length →
          rowScore sim sched.year name (sched.events.getD j default) = 0) →
        (0 ∉ sched.labels → sched.get_event_by_name sim name = none)
        ∧ (∀ j0, j0 < sched.labels.length → sched.labels.getD j0 0 = 0 →
            sched.get_event_by_name sim name =
              some (sched.events.getD j0 default))) := by
  have hzl : (sched.labels.zip sched.events).length = sched.events.length := by
    rw [List.length_zip, hlen, Nat.min_self]
  have hget : ∀ k, k < sched.events.length →
      (((sched.labels.zip sched.events).map fun p =>
        (p.1, rowScore sim sched.year name p.2)).getD k (0, 0)) =
      (sched.labels.getD k 0,
        rowScore sim sched.year name (sched.events.getD k default)) := by
    intro k hk
    have hkm : k < ((sched.labels.zip sched.events).map fun p =>
        (p.1, rowScore sim sched.year name p.2)).length := by
      rw [List.length_map, hzl]
      exact hk
    have hkl : k < sched.labels.length := by omega
    rw [List.getD_eq_getElem _ _ hkm, List.getElem_map, List.getElem_zip,
      List.getD_eq_getElem _ _ hkl, List.getD_eq_getElem _ _ hk]
  have hloc : ∀ j, j < sched.events.length →
      locLabel (sched.labels.zip sched.events) (sched.labels.getD j 0) =
        some (sched.events.getD j default) := by
    intro j hj
    have hjl : j < sched.labels.length := by omega
    rw [locLabel, List.getD_eq_getElem _ _ hjl, zip_find_label hnd j hjl hj,
      List.getD_eq_getElem _ _ hj]
    rfl
  rcases bestLabelAux_spec ((sched.labels.zip sched.events).map fun p =>
      (p.1, rowScore sim sched.year name p.2)) 0 0 with
    ⟨heq, hle⟩ | ⟨j, hj, heq, hgt, hmax, hfirst⟩
  · have hzero : ∀ j, j < sched.events.length →
        rowScore sim sched.year name (sched.events.getD j default) = 0 := by
      intro j hjn
      have hjm : j < ((sched.labels.zip sched.events).map fun p =>
          (p.1, rowScore sim sched.year name p.2)).length := by
        rw [List.length_map, hzl]
        exact hjn
      have hb := hle _ (getD_mem (0, 0) hjm)
      rw [hget j hjn] at hb
      omega
    constructor
    · rintro ⟨j, hjn, hpos⟩
      rw [hzero j hjn] at hpos
      exact absurd hpos (by omega)
    · intro hallz
      constructor
      · intro h0
        simp only [EventSchedule.get_event_by_name]
        rw [heq, locLabel]
        have hfn : (sched.labels.zip sched.events).find?
            (fun p => p.1 = 0) = none := by
          rw [List.find?_eq_none]
          intro x hx
          obtain ⟨a, b⟩ := x
          simp only [decide_eq_true_eq]
          intro ha0
          exact h0 (ha0 ▸ (List.of_mem_zip hx).1)
        rw [hfn]
        rfl
      · intro j0 hj0 hz
        have hj0e : j0 < sched.events.length := by omega
        simp only [EventSchedule.get_event_by_name]
        rw [heq, ← hz]
        exact hloc j0 hj0e
  · have hjz : j < (sched.labels.zip sched.events).length := by
      simpa using hj
    have hjn : j < sched.events.length := by
      rw [hzl] at hjz
      exact hjz
    have hres : sched.get_event_by_name sim name =
        some (sched.events.getD j default) := by
      simp only [EventSchedule.get_event_by_name]
      rw [heq, hget j hjn]
      exact hloc j hjn
    have hscore : ∀ k, k < sched.events.length →
        rowScore sim sched.year name (sched.events.getD k default) =
        (((sched.labels.zip sched.events).map fun p =>
          (p.1, rowScore sim sched.year name p.2)).getD k (0, 0)).2 := by
      intro k hk
      rw [hget k hk]
    constructor
    · intro _
      refine ⟨j, hjn, hres, ?_, ?_⟩
      · intro k hk
        rw [hscore k hk, hscore j hjn]
        exact hmax k (by rw [List.length_map, hzl]; exact hk)
      · intro k hk
        rw [hscore k (Nat.lt_trans hk hjn), hscore j hjn]
        exact hfirst k hk
    · intro hallz
      rw [hget j hjn] at hgt
      have := hallz j hjn
      exact absurd this (by omega)

/-- C10 witness: the by-number equivalence applied to the concrete
numeric string "2.0". -/
theorem C10_witness :
    pyFloat? "2.0" = some (.finite 20 10)
    ∧ sampleEvent.get_session_name (.str "2.0") =
        sampleEvent.get_session_name (.num (.finite 20 10))
    ∧ sampleEvent.get_session (.str "2.0") =
        sampleEvent.get_session (.num (.finite 20 10)) :=
  ⟨by decide,
    (C10_numeric_strings.1 sampleEvent "2.0" (.finite 20 10) (by decide)).1,
    (C10_numeric_strings.1 sampleEvent "2.0" (.finite 20 10) (by decide)).2⟩

/-- C8: `get_event` rejects round number 0 with its explicit guard on
every schedule whatsoever — the guard fires before any round lookup, so a
round-0 row can never be silently matched — while every testing event of
a schedule stays reachable through `get_testing_event`, which selects
rows by filtering on `is_testing()`. -/
theorem C8_round_zero_guard :
    (∀ (sim : String → String → Nat) (sched : EventSchedule),
      get_event sim sched (.round 0) = .error .testingByRound)
    ∧ (∀ (sched : EventSchedule) (ev : Event), ev ∈ sched.events →
      ev.is_testing = true →
      ∃ t : Int, get_testing_event sched t = .ok ev) := by
  constructor
  · intro sim sched
    simp [get_event]
  · intro sched ev hmem htest
    have hmemf : ev ∈ sched.events.filter Event.is_testing :=
      List.mem_filter.2 ⟨hmem, htest⟩
    obtain ⟨j, hjlen, hjget⟩ := List.getElem_of_mem hmemf
    refine ⟨(j : Int) + 1, ?_⟩
    simp only [get_testing_event]
    rw [if_neg (by omega)]
    have hidx : ((j : Int) + 1 - 1).toNat = j := by omega
    rw [hidx, List.getElem?_eq_getElem hjlen, hjget]

/-- C9: `get_testing_event` is 1-indexed over the season's testing
events in table order: indices from 1 to the number of testing events
return that event, anything smaller or larger fails with the
test-event-does-not-exist error. -/
theorem C9_testing_event_indexing (sched : EventSchedule) (t : Int) :
    (1 ≤ t → t ≤ (sched.events.filter Event.is_testing).length →
      get_testing_event sched t =
        .ok ((sched.events.filter Event.is_testing).getD
          (t - 1).toNat default))
    ∧ ((t < 1 ∨ ((sched.events.filter Event.is_testing).length : Int) < t) →
      get_testing_event sched t = .error .testEventNotExist) := by
  constructor
  · intro h1 h2
    have hlt : (t - 1).toNat < (sched.events.filter Event.is_testing).length := by
      omega
    simp only [get_testing_event]
    rw [if_neg (by omega), List.getElem?_eq_getElem hlt,
      List.getD_eq_getElem _ default hlt]
  · intro h
    rcases h with h | h
    · simp only [get_testing_event]
      rw [if_pos h]
    · simp only [get_testing_event]
      rw [if_neg (by omega), List.getElem?_eq_none (by omega)]

/-- A testing event sharing round number 0. -/
def testingEvent1 : Event :=
  { round_number := 0, country := "Bahrain", location := "Sakhir",
    event_name := "Pre-Season Test", event_format := "testing" }

/-- A two-row schedule: one testing event and one conventional event,
with the fresh RangeIndex labels 0 and 1. -/
def sampleSchedule : EventSchedule :=
  ⟨2021, [testingEvent1, sampleEvent], [0, 1]⟩

/-- The schedule obtained from `sampleSchedule` by filtering out testing
rows: the surviving row keeps its original label 1, so no row carries
label 0. -/
def filteredSchedule : EventSchedule := ⟨2021, [sampleEvent], [1]⟩

/-- A concrete similarity function used to instantiate the parametric
fuzzy-lookup theorem. -/
def simExact : String → String → Nat := fun a b => if a = b then 100 else 0

/-- C5: counterexample.  The original claim promises that some
best-available row is always returned, but on the nonempty
testing-filtered schedule (labels lacking 0) a query scoring 0 against
every candidate string leaves the loop's index at the literal label 0,
the final `loc` lookup finds no row, and the call fails instead of
returning a row; the same failure surfaces through `get_event` on the
unfiltered schedule. -/
theorem C5_counterexample :
    filteredSchedule.events ≠ []
    ∧ filteredSchedule.get_event_by_name simExact "zzz" = none
    ∧ get_event simExact sampleSchedule (.name "zzz") =
        .error .locKeyError := by
  decide

/-- C5 witness: the amended description evaluated on a concrete schedule
and query whose best score is positive. -/
theorem C5_witness :
    sampleSchedule.labels.length = sampleSchedule.events.length
    ∧ sampleSchedule.labels.Nodup
    ∧ (∃ j, j < sampleSchedule.events.length ∧
        0 < rowScore simExact sampleSchedule.year "sakhir"
          (sampleSchedule.events.getD j default))
    ∧ ∃ k, k < sampleSchedule.events.length
      ∧ sampleSchedule.get_event_by_name simExact "sakhir" =
          some (sampleSchedule.events.getD k default)
      ∧ (∀ j, j < sampleSchedule.events.length →
          rowScore simExact sampleSchedule.year "sakhir"
              (sampleSchedule.events.getD j default) ≤
            rowScore simExact sampleSchedule.year "sakhir"
              (sampleSchedule.events.getD k default))
      ∧ (∀ j, j < k →
          rowScore simExact sampleSchedule.year "sakhir"
              (sampleSchedule.events.getD j default) <
            rowScore simExact sampleSchedule.year "sakhir"
              (sampleSchedule.events.getD k default)) :=
  ⟨rfl, by decide, ⟨1, by decide, by decide⟩,
    (C5_get_event_by_name simExact sampleSchedule "sakhir" rfl (by decide)).1
      ⟨1, by decide, by decide⟩⟩

/-- C8 witness: the round-0 guard and testing reachability on a concrete
schedule. -/
theorem C8_witness :
    get_event simExact sampleSchedule (.round 0) = .error .testingByRound
    ∧ ∃ t : Int, get_testing_event sampleSchedule t = .ok testingEvent1 :=
  ⟨C8_round_zero_guard.1 simExact sampleSchedule,
   C8_round_zero_guard.2 sampleSchedule testingEvent1 (by decide) (by decide)⟩

/-- C9 witness: index 1 returns the only testing event and index 2 is
out of range on a concrete schedule. -/
theorem C9_witness :
    get_testing_event sampleSchedule 1 =
      .ok ((sampleSchedule.events.filter Event.is_testing).getD
        ((1 : Int) - 1).toNat default)
    ∧ get_testing_event sampleSchedule 2 = .error .testEventNotExist :=
  ⟨(C9_testing_event_indexing sampleSchedule 1).1 (by decide) (by decide),
   (C9_testing_event_indexing sampleSchedule 2).2 (by decide)⟩

end FastF1
